import Mathlib

/-
Verification of the prediction-lifecycle engine of the Crypto Clash bot.

The definitions below are a shallow embedding of the functions in
src/crypto_clash_bot.py: `check_prediction_result` (resolution of a timed
prediction), its helpers `award_xp`, `update_daily_challenge`,
`check_achievements`, `calculate_level`, the price lookup
`get_crypto_price`, and the power-up handler `use_whale_powerup`.

Modelling choices:
- prices, percentages and timestamps are exact rationals; the one place
  where double-precision rounding is observable (the token-reward
  computation, which truncates a float product with int(...)) is modelled
  by an explicit binary64 round-to-nearest-even function `roundD`;
- Python dicts holding one record per user become an `Option Player`
  (the owner entry; `get_player_data` default-initialises on demand);
- enumerated string keys of the source (achievement ids, daily-challenge
  types, directions, result strings) become inductive types;
- the network call of the oracle is abstracted as a list of attempt
  outcomes (one `Option` price per retry iteration of the source loop);
- message rendering, logging, the group leaderboard and the Telegram glue
  carry no player or prediction state relevant to the claims and are not
  modelled.
-/

namespace CryptoClash

inductive Direction
  | up
  | down
deriving DecidableEq, Repr

/-- The `prediction['result']` strings of the source. -/
inductive PredResult
  | won
  | lost
  | expired
  | error
deriving DecidableEq, Repr

/-- The achievement identifiers of `self.achievements`. -/
inductive AchId
  | first_win
  | streak_5
  | streak_10
  | whale_user
  | high_roller
  | prophet
  | daily_warrior
deriving DecidableEq, Repr

/-- The daily-challenge type strings of `self.challenge_types`. -/
inductive ChallengeType
  | win_streak
  | predictions
  | whale_mode
  | perfect_day
deriving DecidableEq, Repr

/-- One record of `self.player_data`, as created by `get_player_data`. -/
structure Player where
  streak : Nat
  best_streak : Nat
  last_play : ℚ
  shard_tokens : Nat
  whale_powerups : Nat
  og_status : Bool
  total_predictions : Nat
  wins : Nat
  referrals : Nat
  level : Nat
  xp : Nat
  achievements : List AchId
  daily_challenges_completed : Nat
  streak_shields : Nat
  double_xp_remaining : Nat
  lucky_charms : Nat
  whale_uses : Nat
  perfect_streak : Nat
  last_challenge_reset : ℚ
deriving DecidableEq, Repr

/-- One record of `self.daily_challenges` (the flavour text is dropped). -/
structure DailyChallenge where
  ctype : ChallengeType
  progress : Nat
  target : Nat
  reward : Nat
  completed : Bool
deriving DecidableEq, Repr

/-- One record of `self.active_predictions`.  Keys that the source adds
only later (`direction`, `result`, `final_price`, ...) are `Option`s;
`whale_mode` is read with a `False` default in the source, hence a plain
`Bool` here.  `error_flag` stands for the presence of the
`error_msg` text entry. -/
structure Prediction where
  user_id : Nat
  chat_id : Nat
  start_price : ℚ
  timestamp : ℚ
  fud_active : Bool
  locked : Bool
  completed : Bool
  whale_mode : Bool
  direction : Option Direction
  result : Option PredResult
  final_price : Option ℚ
  price_change_pct : Option ℚ
  tokens_earned : Option Nat
  xp_earned : Option Nat
  previous_streak : Option Nat
  streak_protected : Option Bool
  error_flag : Bool
deriving DecidableEq, Repr

/-- One record of `self.price_cache`. -/
structure CacheEntry where
  price : ℚ
  timestamp : ℚ
deriving DecidableEq, Repr

/-- The slice of the bot state that `check_prediction_result` reads and
writes for one prediction: the owner entry of `self.player_data`
(`none` while not yet created), the owner entry of
`self.daily_challenges`, the prediction record, and the current clock
value that `time.time()` would return. -/
structure BotState where
  player : Option Player
  challenge : Option DailyChallenge
  pred : Prediction
  now : ℚ
deriving DecidableEq, Repr

/-- The fresh record built by `get_player_data` on first use. -/
def defaultPlayer : Player where
  streak := 0
  best_streak := 0
  last_play := 0
  shard_tokens := 1000
  whale_powerups := 1
  og_status := false
  total_predictions := 0
  wins := 0
  referrals := 0
  level := 1
  xp := 0
  achievements := []
  daily_challenges_completed := 0
  streak_shields := 0
  double_xp_remaining := 0
  lucky_charms := 0
  whale_uses := 0
  perfect_streak := 0
  last_challenge_reset := 0

/-- `get_player_data`: return the stored record, default-initialising it
when absent. -/
def getPlayerData : Option Player → Player
  | none => defaultPlayer
  | some p => p

/-- `calculate_level`: the descending scan over `self.level_requirements`. -/
def calculate_level (xp : Nat) : Nat :=
  if 30000 ≤ xp then 10
  else if 15000 ≤ xp then 9
  else if 8000 ≤ xp then 8
  else if 4000 ≤ xp then 7
  else if 2000 ≤ xp then 6
  else if 1000 ≤ xp then 5
  else if 500 ≤ xp then 4
  else if 250 ≤ xp then 3
  else if 100 ≤ xp then 2
  else 1

/-- `award_xp`: double the base when a double-XP buff is active (consuming
one use), add to cumulative XP, recompute the level.  Returns the updated
player and the awarded amount. -/
def award_xp (p : Player) (base_xp : Nat) : Player × Nat :=
  let mult : Nat := if 0 < p.double_xp_remaining then 2 else 1
  let awarded := base_xp * mult
  let p1 := if mult = 2 then { p with double_xp_remaining := p.double_xp_remaining - 1 } else p
  let newXp := p1.xp + awarded
  ({ p1 with xp := newXp, level := calculate_level newXp }, awarded)

/-- `update_daily_challenge`: bump progress when the action matches the
active challenge type; on reaching the target, mark completed and credit
the reward to the player. -/
def update_daily_challenge (p : Player) (ch : Option DailyChallenge)
    (action : ChallengeType) (value : Nat) : Player × Option DailyChallenge :=
  match ch with
  | none => (p, none)
  | some c =>
    if c.completed then (p, some c)
    else if c.ctype = action then
      let c2 := { c with progress := c.progress + value }
      if c2.target ≤ c2.progress then
        ({ p with shard_tokens := p.shard_tokens + c2.reward,
                  daily_challenges_completed := p.daily_challenges_completed + 1 },
         some { c2 with completed := true })
      else (p, some c2)
    else (p, some c)

/-- The token reward of each achievement in `self.achievements`. -/
def achievement_reward : AchId → Nat
  | .first_win => 500
  | .streak_5 => 1000
  | .streak_10 => 2500
  | .whale_user => 1500
  | .high_roller => 3000
  | .prophet => 5000
  | .daily_warrior => 2000

/-- The predicate table `achievements_to_check`, evaluated on a given
player record. -/
def achievement_cond (p : Player) : AchId → Bool
  | .first_win => decide (1 ≤ p.wins)
  | .streak_5 => decide (5 ≤ p.best_streak)
  | .streak_10 => decide (10 ≤ p.best_streak)
  | .whale_user => decide (10 ≤ p.whale_uses)
  | .high_roller => decide (10000 ≤ p.shard_tokens)
  | .prophet => decide (100 ≤ p.wins)
  | .daily_warrior => decide (7 ≤ p.daily_challenges_completed)

/-- The iteration order of the `achievements_to_check` dict. -/
def achievement_list : List AchId :=
  [AchId.first_win, AchId.streak_5, AchId.streak_10, AchId.whale_user,
   AchId.high_roller, AchId.prophet, AchId.daily_warrior]

/-- One iteration of the granting loop of `check_achievements`: the
precomputed condition table `conds` was built from the entry state; the
membership test runs against the evolving achievements list. -/
def grantStep (conds : AchId → Bool) (acc : Player × List AchId) (a : AchId) :
    Player × List AchId :=
  if conds a && !(decide (a ∈ acc.1.achievements)) then
    ({ acc.1 with achievements := acc.1.achievements ++ [a],
                  shard_tokens := acc.1.shard_tokens + achievement_reward a },
     acc.2 ++ [a])
  else acc

/-- `check_achievements`: the condition dict is built once from the state
at entry, then the loop grants every newly satisfied achievement and its
token reward.  Returns the updated player and the granted ids. -/
def check_achievements (p : Player) : Player × List AchId :=
  achievement_list.foldl (grantStep (achievement_cond p)) (p, [])

/-! Binary64 model.  The token reward of the source is
`int(base_reward * whale_multiplier * streak_multiplier)` with
`streak_multiplier = 1 + (streak * 0.1)` computed in Python floats, i.e.
IEEE-754 binary64 with round-to-nearest-even (ties to even) after every
operation.  Every value reached by that computation is positive and far
inside the normal range, so the model below — which rounds an exact
positive rational `p / q` to 53 significant bits and carries the result
as a mantissa/shift pair `(m, k)` standing for `m / 2 ^ k` — reproduces
it exactly.  Everything is plain natural/integer arithmetic so that the
kernel can evaluate it on concrete inputs. -/

/-- Fuelled bit length: `bitsAux fuel n` is the number of binary digits
of `n` for `n < 2 ^ fuel`. -/
def bitsAux : Nat → Nat → Nat
  | 0, _ => 0
  | fuel + 1, n => if n = 0 then 0 else bitsAux fuel (n / 2) + 1

/-- Bit length of a natural number (256 bits of fuel cover every value
this model touches). -/
def bits (n : Nat) : Nat := bitsAux 256 n

/-- `dle e p q` decides `2 ^ e ≤ p / q` for positive `p q`. -/
def dle (e : ℤ) (p q : Nat) : Bool :=
  match e with
  | .ofNat n => decide (q * 2 ^ n ≤ p)
  | .negSucc n => decide (q ≤ p * 2 ^ (n + 1))

/-- The binade of `p / q` (for positive `p q`): the unique `e` with
`2 ^ e ≤ p / q < 2 ^ (e + 1)`. -/
def ratExp2 (p q : Nat) : ℤ :=
  let e0 : ℤ := (bits p : ℤ) - (bits q : ℤ)
  if dle e0 p q then e0 else e0 - 1

/-- Round the positive rational `p / q` to the nearest binary64 value
(round-to-nearest, ties-to-even), returned as `(m, k)` standing for
`m / 2 ^ k` — the mantissa scaled into `[2 ^ 52, 2 ^ 53]` and the
(nonnegative) scaling shift `52 - e`.  Assumes the normal range with
exponent at most 52, which holds throughout the reward computation. -/
def roundPQ (p q : Nat) : Nat × Nat :=
  if p = 0 then (0, 0)
  else
    let e := ratExp2 p q
    let j : ℤ := 52 - e
    let num := if 0 ≤ j then p * 2 ^ j.toNat else p
    let den := if 0 ≤ j then q else q * 2 ^ (-j).toNat
    let m0 := num / den
    let r := num % den
    let m1 :=
      if den < 2 * r then m0 + 1
      else if 2 * r < den then m0
      else if m0 % 2 = 0 then m0 else m0 + 1
    (m1, j.toNat)

/-- The binary64 value of the literal `0.1`, as a mantissa/shift pair. -/
def fpTenth : Nat × Nat := roundPQ 1 10

/-- `streak_multiplier = 1 + (streak * 0.1)` in binary64: one rounding
for the int-times-float product, one for the sum (`1` is added by
putting it over the common power-of-two denominator). -/
def streakMultF (s : Nat) : Nat × Nat :=
  let t1 := roundPQ (s * fpTenth.1) (2 ^ fpTenth.2)
  roundPQ (2 ^ t1.2 + t1.1) (2 ^ t1.2)

/-- `int(base_reward * whale_multiplier * streak_multiplier)`: the two
integer factors multiply exactly, the product with the float rounds
once, and `int(...)` truncates (the value is positive, so dividing the
mantissa by the shift floors it). -/
def tokenRewardF (w s : Nat) : Nat :=
  let t2 := streakMultF s
  let t3 := roundPQ (100 * w * t2.1) (2 ^ t2.2)
  t3.1 / 2 ^ t3.2

/-! The resolution engine `check_prediction_result`. -/

/-- `price_change_pct = ((final_price - start_price) / start_price) * 100`. -/
def priceChangePct (startP finalP : ℚ) : ℚ := (finalP - startP) / startP * 100

/-- `required_change = 1.1 if prediction.get('fud_active', False) else 1.0`
(both literals are exactly representable up to the comparison below, and
the comparison itself is modelled on the exact rationals). -/
def requiredChange (fud : Bool) : ℚ := if fud then 11 / 10 else 1

/-- The win test: `price_change_pct >= required_change` for an up bet,
`price_change_pct <= -required_change` for a down bet. -/
def predictionWon (d : Direction) (pct req : ℚ) : Bool :=
  match d with
  | .up => decide (pct ≥ req)
  | .down => decide (pct ≤ -req)

/-- Lines 653-654 of the source: stamp the cooldown clock and count the
attempt, common to the win and the loss branch. -/
def attemptPlayer (p : Player) (now : ℚ) : Player :=
  { p with last_play := now, total_predictions := p.total_predictions + 1 }

/-- `whale_multiplier = 3 if prediction.get('whale_mode', False) else 1`. -/
def whaleMultOf (pred : Prediction) : Nat := if pred.whale_mode then 3 else 1

/-- The win branch of `check_prediction_result`.  `streak_multiplier` is
computed from the streak value before the increment; the XP base and the
win-streak challenge update use the incremented streak. -/
def resolveWin (st : BotState) (fp pct : ℚ) : BotState :=
  let p1 := attemptPlayer (getPlayerData st.player) st.now
  let preStreak := p1.streak
  let p2 := { p1 with wins := p1.wins + 1, streak := p1.streak + 1,
                      perfect_streak := p1.perfect_streak + 1 }
  let p3 := if p2.best_streak < p2.streak then { p2 with best_streak := p2.streak } else p2
  let reward := tokenRewardF (whaleMultOf st.pred) preStreak
  let p4 := { p3 with shard_tokens := p3.shard_tokens + reward }
  let xr := award_xp p4 (50 + p4.streak * 5)
  let dc1 := update_daily_challenge xr.1 st.challenge .predictions 1
  let dc2 := update_daily_challenge dc1.1 dc1.2 .win_streak dc1.1.streak
  let dc3 :=
    if 1 < whaleMultOf st.pred then
      let u := update_daily_challenge dc2.1 dc2.2 .whale_mode 1
      ({ u.1 with whale_uses := u.1.whale_uses + 1 }, u.2)
    else dc2
  let ca := check_achievements dc3.1
  let predOut := { st.pred with
                   completed := true, result := some .won,
                   final_price := some fp, price_change_pct := some pct,
                   tokens_earned := some reward, xp_earned := some xr.2 }
  { st with player := some ca.1, challenge := dc3.2, pred := predOut }

/-- The loss branch of `check_prediction_result`: a streak shield, when
available, is consumed and preserves the streak; otherwise the streak and
the perfect streak reset.  The attempt still counts for the
`predictions` challenge, a whale use is still recorded, and a flat 10
base XP is awarded. -/
def resolveLoss (st : BotState) (fp pct : ℚ) : BotState :=
  let p1 := attemptPlayer (getPlayerData st.player) st.now
  let previous_streak := p1.streak
  let protected_ : Bool := decide (0 < p1.streak_shields)
  let p2 :=
    if 0 < p1.streak_shields then { p1 with streak_shields := p1.streak_shields - 1 }
    else { p1 with streak := 0, perfect_streak := 0 }
  let dc1 := update_daily_challenge p2 st.challenge .predictions 1
  let p3 := if 1 < whaleMultOf st.pred then { dc1.1 with whale_uses := dc1.1.whale_uses + 1 }
            else dc1.1
  let xr := award_xp p3 10
  let predOut := { st.pred with
                   completed := true, result := some .lost,
                   final_price := some fp, price_change_pct := some pct,
                   previous_streak := some previous_streak,
                   streak_protected := some protected_, xp_earned := some xr.2 }
  { st with player := some xr.1, challenge := dc1.2, pred := predOut }

/-- `check_prediction_result`, given the prediction slice of the state and
the oracle outcome for the final price (`none` when `get_crypto_price`
returned `None`).  The source sets `completed = True` before branching;
every branch below records it on its way out, which yields the same
state.  With no committed direction the prediction expires untouched;
with no price it errors out untouched; otherwise the win test decides
between the two mutation branches. -/
def check_prediction_result (st : BotState) (oracle : Option ℚ) : BotState :=
  match st.pred.direction with
  | none =>
      { st with pred := { st.pred with completed := true, result := some .expired } }
  | some d =>
    match oracle with
    | none =>
        { st with pred := { st.pred with
                            completed := true, result := some .error,
                            error_flag := true } }
    | some fp =>
        let pct := priceChangePct st.pred.start_price fp
        if predictionWon d pct (requiredChange st.pred.fud_active) then resolveWin st fp pct
        else resolveLoss st fp pct

/-! The price lookup `get_crypto_price`. -/

/-- `self.cache_duration` (seconds). -/
def cache_duration : ℚ := 30

/-- The retry loop of `get_crypto_price`: each list entry is the outcome
of one loop iteration (a fetched price, or `none` for a request error, a
429 that exhausted the iteration, or a missing symbol).  The first
successful attempt wins. -/
def firstSuccess : List (Option ℚ) → Option ℚ
  | [] => none
  | none :: rest => firstSuccess rest
  | some p :: _ => some p

/-- `get_crypto_price` for one symbol: return a fresh cache entry without
a network call; otherwise run the attempts; a success is returned and
overwrites the cache entry; after the attempts are exhausted, a cache
entry of any age is returned as the degraded-mode fallback, and only a
missing entry yields `none`.  The result pairs the returned price with
the cache entry for the symbol after the call. -/
def get_crypto_price (cache : Option CacheEntry) (now : ℚ)
    (attempts : List (Option ℚ)) : Option ℚ × Option CacheEntry :=
  match cache with
  | some c =>
      if now - c.timestamp < cache_duration then (some c.price, some c)
      else
        match firstSuccess attempts with
        | some p => (some p, some { price := p, timestamp := now })
        | none => (some c.price, some c)
  | none =>
      match firstSuccess attempts with
      | some p => (some p, some { price := p, timestamp := now })
      | none => (none, none)

/-! The power-up handler `use_whale_powerup`. -/

/-- The four rejection answers and the success answer of
`use_whale_powerup`. -/
inductive WhaleRes
  | no_powerups
  | missing
  | not_owner
  | already_locked
  | success
deriving DecidableEq, Repr

/-- `use_whale_powerup`: the guards run in source order (empty inventory,
unknown prediction, foreign caller, already locked); only the success
path consumes one power-up and sets the whale flag. -/
def use_whale_powerup (player : Player) (pred : Option Prediction) (caller : Nat) :
    Player × Option Prediction × WhaleRes :=
  if player.whale_powerups = 0 then (player, pred, .no_powerups)
  else
    match pred with
    | none => (player, none, .missing)
    | some pr =>
      if pr.user_id ≠ caller then (player, some pr, .not_owner)
      else if pr.locked then (player, some pr, .already_locked)
      else ({ player with whale_powerups := player.whale_powerups - 1 },
            some { pr with whale_mode := true }, .success)

/-! Concrete fixtures used by the counterexamples and the witnesses. -/

/-- A freshly locked up-bet on an asset at price 100, no FUD roll, no
whale mode. -/
def basePred : Prediction where
  user_id := 7
  chat_id := 1
  start_price := 100
  timestamp := 0
  fud_active := false
  locked := true
  completed := false
  whale_mode := false
  direction := some .up
  result := none
  final_price := none
  price_change_pct := none
  tokens_earned := none
  xp_earned := none
  previous_streak := none
  streak_protected := none
  error_flag := false

/-- A fresh owner about to have `basePred` resolved. -/
def baseSt : BotState where
  player := some defaultPlayer
  challenge := none
  pred := basePred
  now := 60

/-- Fixture for C2: a losing whale-mode down-bet whose owner holds an
active whale-mode daily challenge with no progress yet. -/
def whaleChal : DailyChallenge where
  ctype := .whale_mode
  progress := 0
  target := 2
  reward := 400
  completed := false

def c2St : BotState :=
  { baseSt with
    challenge := some whaleChal,
    pred := { basePred with whale_mode := true, direction := some .down } }

/-- Fixture for C3: an owner sitting on a 13-win streak about to win
again without whale mode. -/
def c3St : BotState :=
  { baseSt with player := some { defaultPlayer with streak := 13, best_streak := 13 } }

/-- Fixtures for C5: a losing resolution for an owner with no shield and
for an owner with two shields. -/
def c5StNoShield : BotState :=
  { baseSt with player := some { defaultPlayer with streak := 5, best_streak := 5 } }

def c5StShield : BotState :=
  { baseSt with
    player := some { defaultPlayer with streak := 5, best_streak := 5, streak_shields := 2 } }

/-- Fixture for C6: the owner never committed a direction. -/
def c6St : BotState := { baseSt with pred := { basePred with direction := none } }

/-- Fixture for C9: a prediction already locked by its owner. -/
def c9Player : Player := { defaultPlayer with whale_powerups := 2 }

/-! Frame lemmas: which player fields each helper leaves untouched.
`update_daily_challenge` writes only `shard_tokens` and
`daily_challenges_completed`; `award_xp` writes only
`double_xp_remaining`, `xp` and `level`; the achievement loop writes only
`achievements` and `shard_tokens`. -/

@[simp] theorem udc_streak (p : Player) (ch : Option DailyChallenge) (a : ChallengeType)
    (v : Nat) : (update_daily_challenge p ch a v).1.streak = p.streak := by
  rcases ch with _ | c
  · rfl
  · simp only [update_daily_challenge]
    split_ifs <;> rfl

@[simp] theorem udc_shields (p : Player) (ch : Option DailyChallenge) (a : ChallengeType)
    (v : Nat) : (update_daily_challenge p ch a v).1.streak_shields = p.streak_shields := by
  rcases ch with _ | c
  · rfl
  · simp only [update_daily_challenge]
    split_ifs <;> rfl

@[simp] theorem udc_dxp (p : Player) (ch : Option DailyChallenge) (a : ChallengeType)
    (v : Nat) : (update_daily_challenge p ch a v).1.double_xp_remaining = p.double_xp_remaining := by
  rcases ch with _ | c
  · rfl
  · simp only [update_daily_challenge]
    split_ifs <;> rfl

@[simp] theorem udc_xp (p : Player) (ch : Option DailyChallenge) (a : ChallengeType)
    (v : Nat) : (update_daily_challenge p ch a v).1.xp = p.xp := by
  rcases ch with _ | c
  · rfl
  · simp only [update_daily_challenge]
    split_ifs <;> rfl

@[simp] theorem udc_total (p : Player) (ch : Option DailyChallenge) (a : ChallengeType)
    (v : Nat) : (update_daily_challenge p ch a v).1.total_predictions = p.total_predictions := by
  rcases ch with _ | c
  · rfl
  · simp only [update_daily_challenge]
    split_ifs <;> rfl

@[simp] theorem udc_whale_uses (p : Player) (ch : Option DailyChallenge) (a : ChallengeType)
    (v : Nat) : (update_daily_challenge p ch a v).1.whale_uses = p.whale_uses := by
  rcases ch with _ | c
  · rfl
  · simp only [update_daily_challenge]
    split_ifs <;> rfl

/-- A challenge of a different type is left fully untouched, player
included. -/
theorem udc_noop (p : Player) (c : DailyChallenge) (a : ChallengeType) (v : Nat)
    (h : c.ctype ≠ a) : update_daily_challenge p (some c) a v = (p, some c) := by
  simp only [update_daily_challenge, if_neg h, ite_self]

@[simp] theorem axp_streak (p : Player) (b : Nat) : (award_xp p b).1.streak = p.streak := by
  simp only [award_xp]
  split_ifs <;> rfl

@[simp] theorem axp_shields (p : Player) (b : Nat) :
    (award_xp p b).1.streak_shields = p.streak_shields := by
  simp only [award_xp]
  split_ifs <;> rfl

@[simp] theorem axp_total (p : Player) (b : Nat) :
    (award_xp p b).1.total_predictions = p.total_predictions := by
  simp only [award_xp]
  split_ifs <;> rfl

@[simp] theorem axp_whale_uses (p : Player) (b : Nat) :
    (award_xp p b).1.whale_uses = p.whale_uses := by
  simp only [award_xp]
  split_ifs <;> rfl

@[simp] theorem axp_tokens (p : Player) (b : Nat) :
    (award_xp p b).1.shard_tokens = p.shard_tokens := by
  simp only [award_xp]
  split_ifs <;> rfl

theorem axp_xp_eq (p : Player) (b : Nat) :
    (award_xp p b).1.xp = p.xp + (if 0 < p.double_xp_remaining then b * 2 else b) := by
  by_cases h : 0 < p.double_xp_remaining
  · simp [award_xp, h]
  · simp [award_xp, h]

theorem axp_snd (p : Player) (b : Nat) :
    (award_xp p b).2 = if 0 < p.double_xp_remaining then b * 2 else b := by
  by_cases h : 0 < p.double_xp_remaining
  · simp [award_xp, h]
  · simp [award_xp, h]

/-- Shape of the achievement loop: only `achievements` and
`shard_tokens` can change. -/
theorem grant_fold_shape (c : AchId → Bool) (l : List AchId) :
    ∀ (q : Player) (n : List AchId), ∃ a t,
      (List.foldl (grantStep c) (q, n) l).1
        = { q with achievements := a, shard_tokens := t } := by
  induction l with
  | nil =>
      intro q n
      exact ⟨q.achievements, q.shard_tokens, rfl⟩
  | cons x l ih =>
      intro q n
      rw [List.foldl_cons]
      by_cases hx : (c x && !(decide (x ∈ q.achievements))) = true
      · rw [grantStep, if_pos hx]
        obtain ⟨a, t, h⟩ := ih { q with achievements := q.achievements ++ [x],
                                        shard_tokens := q.shard_tokens + achievement_reward x }
                              (n ++ [x])
        exact ⟨a, t, h⟩
      · rw [grantStep, if_neg hx]
        exact ih q n

@[simp] theorem ca_total (p : Player) :
    (check_achievements p).1.total_predictions = p.total_predictions := by
  obtain ⟨a, t, h⟩ := grant_fold_shape (achievement_cond p) achievement_list p []
  rw [check_achievements, h]

@[simp] theorem ca_whale_uses (p : Player) :
    (check_achievements p).1.whale_uses = p.whale_uses := by
  obtain ⟨a, t, h⟩ := grant_fold_shape (achievement_cond p) achievement_list p []
  rw [check_achievements, h]

@[simp] theorem ca_streak (p : Player) :
    (check_achievements p).1.streak = p.streak := by
  obtain ⟨a, t, h⟩ := grant_fold_shape (achievement_cond p) achievement_list p []
  rw [check_achievements, h]

@[simp] theorem ca_shields (p : Player) :
    (check_achievements p).1.streak_shields = p.streak_shields := by
  obtain ⟨a, t, h⟩ := grant_fold_shape (achievement_cond p) achievement_list p []
  rw [check_achievements, h]

@[simp] theorem ca_xp (p : Player) : (check_achievements p).1.xp = p.xp := by
  obtain ⟨a, t, h⟩ := grant_fold_shape (achievement_cond p) achievement_list p []
  rw [check_achievements, h]

/-- The granting loop, characterised against the entry state: when the
evolving achievements list is `base ++ n` with the pending ids of `l`
disjoint from `n` and `l` duplicate-free, the granted ids are exactly the
pending ids whose (precomputed) condition holds and which were not
already present at entry, and the final achievements list extends `base`
by exactly the granted ids. -/
theorem grant_fold_spec (c : AchId → Bool) :
    ∀ (l : List AchId) (q : Player) (n base : List AchId),
      q.achievements = base ++ n → (∀ a ∈ l, a ∉ n) → l.Nodup →
      (List.foldl (grantStep c) (q, n) l).2
          = n ++ l.filter (fun a => c a && !(decide (a ∈ base))) ∧
      (List.foldl (grantStep c) (q, n) l).1.achievements
          = base ++ (List.foldl (grantStep c) (q, n) l).2 := by
  intro l
  induction l with
  | nil =>
      intro q n base hq _ _
      exact ⟨by simp, by simpa using hq⟩
  | cons x l ih =>
      intro q n base hq hdis hnd
      have hxn : x ∉ n := hdis x (List.mem_cons_self x l)
      have hmem : (x ∈ q.achievements) ↔ (x ∈ base) := by
        rw [hq, List.mem_append]
        simp [hxn]
      have hcond : (c x && !(decide (x ∈ q.achievements)))
                     = (c x && !(decide (x ∈ base))) := by
        by_cases hb : x ∈ base
        · simp [hb, hmem.mpr hb]
        · have hqa : x ∉ q.achievements := fun hh => hb (hmem.mp hh)
          simp [hb, hqa]
      rw [List.foldl_cons]
      by_cases hx : (c x && !(decide (x ∈ base))) = true
      · have hx0 : (c x && !(decide (x ∈ q.achievements))) = true := by
          rw [hcond]
          exact hx
        have hstep : grantStep c (q, n) x
            = ({ q with achievements := q.achievements ++ [x],
                        shard_tokens := q.shard_tokens + achievement_reward x }, n ++ [x]) := by
          simp only [grantStep]
          rw [if_pos hx0]
        rw [hstep]
        have hq2 : ({ q with achievements := q.achievements ++ [x], shard_tokens := q.shard_tokens + achievement_reward x } : Player).achievements = base ++ (n ++ [x]) := by
          simp [hq]
        have hdis2 : ∀ a ∈ l, a ∉ n ++ [x] := by
          intro a ha
          have hne : a ≠ x := by
            rintro rfl
            exact (List.nodup_cons.mp hnd).1 ha
          have han := hdis a (List.mem_cons_of_mem x ha)
          simp [han, hne]
        obtain ⟨h1, h2⟩ := ih _ (n ++ [x]) base hq2 hdis2 (List.nodup_cons.mp hnd).2
        refine ⟨?_, h2⟩
        rw [h1, List.filter_cons_of_pos (by simpa using hx)]
        simp
      · have hx0 : ¬(c x && !(decide (x ∈ q.achievements))) = true := by
          rw [hcond]
          exact hx
        have hstep : grantStep c (q, n) x = (q, n) := by
          simp only [grantStep]
          rw [if_neg hx0]
        rw [hstep]
        obtain ⟨h1, h2⟩ := ih q n base hq (fun a ha => hdis a (List.mem_cons_of_mem x ha))
          (List.nodup_cons.mp hnd).2
        refine ⟨?_, h2⟩
        rw [h1, List.filter_cons_of_neg (by simpa using hx)]

/-- The ids granted by `check_achievements` are exactly those whose
predicate holds on the entry state and which were absent at entry. -/
theorem check_achievements_news (p : Player) :
    (check_achievements p).2
      = achievement_list.filter (fun a => achievement_cond p a && !(decide (a ∈ p.achievements))) := by
  have h := grant_fold_spec (achievement_cond p) achievement_list p [] p.achievements
    (by simp) (by simp) (by decide)
  simpa [check_achievements] using h.1

/-- `check_achievements` extends the achievements list by exactly the
granted ids. -/
theorem check_achievements_ach (p : Player) :
    (check_achievements p).1.achievements = p.achievements ++ (check_achievements p).2 := by
  have h := grant_fold_spec (achievement_cond p) achievement_list p [] p.achievements
    (by simp) (by simp) (by decide)
  simpa [check_achievements] using h.2

/-! Dispatch lemmas for the three entry branches of
`check_prediction_result`. -/

theorem check_dir_none (st : BotState) (o : Option ℚ) (h : st.pred.direction = none) :
    check_prediction_result st o
      = { st with pred := { st.pred with completed := true, result := some .expired } } := by
  unfold check_prediction_result
  rw [h]

theorem check_price_none (st : BotState) (d : Direction) (h : st.pred.direction = some d) :
    check_prediction_result st none
      = { st with pred := { st.pred with completed := true, result := some .error, error_flag := true } } := by
  unfold check_prediction_result
  rw [h]

theorem check_some (st : BotState) (d : Direction) (fp : ℚ) (h : st.pred.direction = some d) :
    check_prediction_result st (some fp)
      = if predictionWon d (priceChangePct st.pred.start_price fp)
            (requiredChange st.pred.fud_active)
        then resolveWin st fp (priceChangePct st.pred.start_price fp)
        else resolveLoss st fp (priceChangePct st.pred.start_price fp) := by
  unfold check_prediction_result
  rw [h]

@[simp] theorem getPlayerData_some (p : Player) : getPlayerData (some p) = p := rfl

@[simp] theorem getPlayerData_none : getPlayerData none = defaultPlayer := rfl

@[simp] theorem attemptPlayer_streak (p : Player) (t : ℚ) :
    (attemptPlayer p t).streak = p.streak := rfl

@[simp] theorem attemptPlayer_shields (p : Player) (t : ℚ) :
    (attemptPlayer p t).streak_shields = p.streak_shields := rfl

@[simp] theorem attemptPlayer_dxp (p : Player) (t : ℚ) :
    (attemptPlayer p t).double_xp_remaining = p.double_xp_remaining := rfl

@[simp] theorem attemptPlayer_xp (p : Player) (t : ℚ) :
    (attemptPlayer p t).xp = p.xp := rfl

@[simp] theorem attemptPlayer_total (p : Player) (t : ℚ) :
    (attemptPlayer p t).total_predictions = p.total_predictions + 1 := rfl

@[simp] theorem attemptPlayer_whale_uses (p : Player) (t : ℚ) :
    (attemptPlayer p t).whale_uses = p.whale_uses := rfl

@[simp] theorem attemptPlayer_wins (p : Player) (t : ℚ) :
    (attemptPlayer p t).wins = p.wins := rfl

/-- Whale mode is exactly what makes the multiplier exceed 1. -/
theorem whaleMult_gt_one (pr : Prediction) : (1 < whaleMultOf pr) ↔ pr.whale_mode = true := by
  by_cases h : pr.whale_mode = true
  · simp [whaleMultOf, h]
  · simp [whaleMultOf, h]

/-- Field equations for the loss branch. -/
theorem resolveLoss_streak (st : BotState) (fp pct : ℚ) :
    (getPlayerData (resolveLoss st fp pct).player).streak
      = if 0 < (getPlayerData st.player).streak_shields
        then (getPlayerData st.player).streak else 0 := by
  simp [resolveLoss, apply_ite Player.streak]

theorem resolveLoss_shields (st : BotState) (fp pct : ℚ) :
    (getPlayerData (resolveLoss st fp pct).player).streak_shields
      = if 0 < (getPlayerData st.player).streak_shields
        then (getPlayerData st.player).streak_shields - 1
        else (getPlayerData st.player).streak_shields := by
  simp [resolveLoss, apply_ite Player.streak_shields]

theorem resolveLoss_xp (st : BotState) (fp pct : ℚ) :
    (getPlayerData (resolveLoss st fp pct).player).xp
      = (getPlayerData st.player).xp
        + (if 0 < (getPlayerData st.player).double_xp_remaining then 20 else 10) := by
  simp [resolveLoss, axp_xp_eq, apply_ite Player.xp, apply_ite Player.double_xp_remaining]

theorem resolveLoss_total (st : BotState) (fp pct : ℚ) :
    (getPlayerData (resolveLoss st fp pct).player).total_predictions
      = (getPlayerData st.player).total_predictions + 1 := by
  simp [resolveLoss, apply_ite Player.total_predictions]

theorem resolveLoss_whale_uses (st : BotState) (fp pct : ℚ) :
    (getPlayerData (resolveLoss st fp pct).player).whale_uses
      = (getPlayerData st.player).whale_uses
        + (if st.pred.whale_mode then 1 else 0) := by
  by_cases h : st.pred.whale_mode = true
  · simp [resolveLoss, h, whaleMultOf, apply_ite Player.whale_uses]
  · simp [resolveLoss, h, whaleMultOf, apply_ite Player.whale_uses]

/-- Field equations for the win branch. -/
theorem resolveWin_total (st : BotState) (fp pct : ℚ) :
    (getPlayerData (resolveWin st fp pct).player).total_predictions
      = (getPlayerData st.player).total_predictions + 1 := by
  simp [resolveWin, apply_ite Prod.fst, apply_ite Player.total_predictions]

theorem resolveWin_whale_uses (st : BotState) (fp pct : ℚ) :
    (getPlayerData (resolveWin st fp pct).player).whale_uses
      = (getPlayerData st.player).whale_uses
        + (if st.pred.whale_mode then 1 else 0) := by
  by_cases h : st.pred.whale_mode = true
  · simp [resolveWin, h, whaleMultOf, apply_ite Prod.fst, apply_ite Player.whale_uses]
  · simp [resolveWin, h, whaleMultOf, apply_ite Prod.fst, apply_ite Player.whale_uses]

/-- Prediction-record projections of the two resolution branches: the
pre-resolution fields survive, the outcome fields are written. -/
theorem resolveWin_start (st : BotState) (fp pct : ℚ) :
    (resolveWin st fp pct).pred.start_price = st.pred.start_price := rfl

theorem resolveWin_fud (st : BotState) (fp pct : ℚ) :
    (resolveWin st fp pct).pred.fud_active = st.pred.fud_active := rfl

theorem resolveWin_direction (st : BotState) (fp pct : ℚ) :
    (resolveWin st fp pct).pred.direction = st.pred.direction := rfl

theorem resolveWin_completed (st : BotState) (fp pct : ℚ) :
    (resolveWin st fp pct).pred.completed = true := rfl

theorem resolveWin_result (st : BotState) (fp pct : ℚ) :
    (resolveWin st fp pct).pred.result = some PredResult.won := rfl

theorem resolveWin_tokens (st : BotState) (fp pct : ℚ) :
    (resolveWin st fp pct).pred.tokens_earned
      = some (tokenRewardF (whaleMultOf st.pred) (getPlayerData st.player).streak) := rfl

theorem resolveLoss_result (st : BotState) (fp pct : ℚ) :
    (resolveLoss st fp pct).pred.result = some PredResult.lost := rfl

/-- Every branch of a resolution leaves the committed direction in
place. -/
theorem check_pred_direction (st : BotState) (o : Option ℚ) :
    (check_prediction_result st o).pred.direction = st.pred.direction := by
  unfold check_prediction_result
  split
  · rfl
  · split
    · rfl
    · dsimp only
      split
      · rfl
      · rfl

/-- Claim C6: a resolution firing on a prediction with no committed
direction records the `expired` outcome and leaves the owner player
record (in particular streak and shard tokens) and the daily challenge
entirely unchanged. -/
theorem C6_expired_frame (st : BotState) (o : Option ℚ) (h : st.pred.direction = none) :
    (check_prediction_result st o).player = st.player ∧
    (check_prediction_result st o).challenge = st.challenge ∧
    (check_prediction_result st o).pred.result = some PredResult.expired ∧
    (getPlayerData (check_prediction_result st o).player).streak
      = (getPlayerData st.player).streak ∧
    (getPlayerData (check_prediction_result st o).player).shard_tokens
      = (getPlayerData st.player).shard_tokens := by
  rw [check_dir_none st o h]
  exact ⟨rfl, rfl, rfl, rfl, rfl⟩

theorem C6_expired_frame_witness :
    (check_prediction_result c6St (some 105)).player = c6St.player ∧
    (check_prediction_result c6St (some 105)).challenge = c6St.challenge ∧
    (check_prediction_result c6St (some 105)).pred.result = some PredResult.expired ∧
    (getPlayerData (check_prediction_result c6St (some 105)).player).streak
      = (getPlayerData c6St.player).streak ∧
    (getPlayerData (check_prediction_result c6St (some 105)).player).shard_tokens
      = (getPlayerData c6St.player).shard_tokens :=
  C6_expired_frame c6St (some 105) rfl

/-- Claim C7: a resolution of a committed prediction for which the price
oracle yields no price records the `error` outcome and leaves the owner
player record (tokens, streak, XP, wins, attempt count, cooldown stamp)
and the daily challenge entirely unchanged. -/
theorem C7_error_frame (st : BotState) (d : Direction) (h : st.pred.direction = some d) :
    (check_prediction_result st none).player = st.player ∧
    (check_prediction_result st none).challenge = st.challenge ∧
    (check_prediction_result st none).pred.result = some PredResult.error ∧
    (getPlayerData (check_prediction_result st none).player).shard_tokens
      = (getPlayerData st.player).shard_tokens ∧
    (getPlayerData (check_prediction_result st none).player).streak
      = (getPlayerData st.player).streak ∧
    (getPlayerData (check_prediction_result st none).player).xp
      = (getPlayerData st.player).xp ∧
    (getPlayerData (check_prediction_result st none).player).wins
      = (getPlayerData st.player).wins ∧
    (getPlayerData (check_prediction_result st none).player).total_predictions
      = (getPlayerData st.player).total_predictions ∧
    (getPlayerData (check_prediction_result st none).player).last_play
      = (getPlayerData st.player).last_play := by
  rw [check_price_none st d h]
  exact ⟨rfl, rfl, rfl, rfl, rfl, rfl, rfl, rfl, rfl⟩

theorem C7_error_frame_witness :
    (check_prediction_result baseSt none).player = baseSt.player ∧
    (check_prediction_result baseSt none).challenge = baseSt.challenge ∧
    (check_prediction_result baseSt none).pred.result = some PredResult.error ∧
    (getPlayerData (check_prediction_result baseSt none).player).shard_tokens
      = (getPlayerData baseSt.player).shard_tokens ∧
    (getPlayerData (check_prediction_result baseSt none).player).streak
      = (getPlayerData baseSt.player).streak ∧
    (getPlayerData (check_prediction_result baseSt none).player).xp
      = (getPlayerData baseSt.player).xp ∧
    (getPlayerData (check_prediction_result baseSt none).player).wins
      = (getPlayerData baseSt.player).wins ∧
    (getPlayerData (check_prediction_result baseSt none).player).total_predictions
      = (getPlayerData baseSt.player).total_predictions ∧
    (getPlayerData (check_prediction_result baseSt none).player).last_play
      = (getPlayerData baseSt.player).last_play :=
  C7_error_frame baseSt Direction.up rfl

/-- The Boolean win test, as a proposition. -/
theorem predictionWon_iff (d : Direction) (pct req : ℚ) :
    predictionWon d pct req = true ↔
      ((d = Direction.up ∧ req ≤ pct) ∨ (d = Direction.down ∧ pct ≤ -req)) := by
  cases d <;> simp [predictionWon, ge_iff_le]

/-- Claim C4: with a committed direction and an available final price,
the recorded outcome is `won` exactly when the percent change reaches the
required move (1.1 with the FUD difficulty event, 1.0 without), compared
inclusively: up-bets win when the change is at least the requirement,
down-bets when it is at most its negation, and an exact-threshold move
counts as a win. -/
theorem C4_outcome_iff (st : BotState) (d : Direction) (fp : ℚ)
    (hdir : st.pred.direction = some d) (_hpos : 0 < st.pred.start_price) :
    ((check_prediction_result st (some fp)).pred.result = some PredResult.won ↔
      ((d = Direction.up ∧
          requiredChange st.pred.fud_active ≤ priceChangePct st.pred.start_price fp) ∨
       (d = Direction.down ∧
          priceChangePct st.pred.start_price fp ≤ -(requiredChange st.pred.fud_active)))) ∧
    requiredChange true = 11 / 10 ∧ requiredChange false = 1 := by
  refine ⟨?_, rfl, rfl⟩
  rw [check_some st d fp hdir]
  by_cases hw : predictionWon d (priceChangePct st.pred.start_price fp)
      (requiredChange st.pred.fud_active) = true
  · rw [if_pos hw]
    have hres : (resolveWin st fp (priceChangePct st.pred.start_price fp)).pred.result
        = some PredResult.won := rfl
    rw [hres]
    constructor
    · intro _
      exact (predictionWon_iff d (priceChangePct st.pred.start_price fp)
        (requiredChange st.pred.fud_active)).mp hw
    · intro _
      rfl
  · rw [if_neg hw]
    have hres : (resolveLoss st fp (priceChangePct st.pred.start_price fp)).pred.result
        = some PredResult.lost := rfl
    rw [hres]
    constructor
    · intro h
      exact absurd h (by simp)
    · intro h
      exact absurd ((predictionWon_iff d (priceChangePct st.pred.start_price fp)
        (requiredChange st.pred.fud_active)).mpr h) hw

theorem C4_outcome_iff_witness :
    (check_prediction_result baseSt (some 101)).pred.result = some PredResult.won :=
  (C4_outcome_iff baseSt Direction.up 101 rfl (by norm_num [baseSt, basePred])).1.mpr
    (Or.inl ⟨rfl, by norm_num [baseSt, basePred, requiredChange, priceChangePct]⟩)

/-- Claim C5: on a losing resolution, an owner with no streak shield has
the streak zeroed; an owner with a positive shield count keeps the streak
and loses exactly one shield; in both cases a flat participation XP of 10
(20 under an active double-XP buff) is credited. -/
theorem C5_loss_path (st : BotState) (d : Direction) (fp : ℚ)
    (hdir : st.pred.direction = some d)
    (hlost : predictionWon d (priceChangePct st.pred.start_price fp)
      (requiredChange st.pred.fud_active) = false) :
    ((getPlayerData st.player).streak_shields = 0 →
      (getPlayerData (check_prediction_result st (some fp)).player).streak = 0) ∧
    (0 < (getPlayerData st.player).streak_shields →
      (getPlayerData (check_prediction_result st (some fp)).player).streak
          = (getPlayerData st.player).streak ∧
      (getPlayerData (check_prediction_result st (some fp)).player).streak_shields
          = (getPlayerData st.player).streak_shields - 1) ∧
    (getPlayerData (check_prediction_result st (some fp)).player).xp
      = (getPlayerData st.player).xp
        + (if 0 < (getPlayerData st.player).double_xp_remaining then 20 else 10) ∧
    (check_prediction_result st (some fp)).pred.result = some PredResult.lost := by
  rw [check_some st d fp hdir, if_neg (by simp [hlost])]
  refine ⟨?_, ?_, resolveLoss_xp st fp _, rfl⟩
  · intro hsh
    rw [resolveLoss_streak, if_neg (by simp [hsh])]
  · intro hsh
    rw [resolveLoss_streak, if_pos hsh, resolveLoss_shields, if_pos hsh]
    exact ⟨rfl, rfl⟩

theorem C5_loss_path_witness :
    ((getPlayerData c5StNoShield.player).streak_shields = 0 →
      (getPlayerData (check_prediction_result c5StNoShield (some 100)).player).streak = 0) ∧
    ((getPlayerData c5StShield.player).streak_shields = 2 ∧
      (getPlayerData (check_prediction_result c5StShield (some 100)).player).streak
          = (getPlayerData c5StShield.player).streak ∧
      (getPlayerData (check_prediction_result c5StShield (some 100)).player).streak_shields
          = (getPlayerData c5StShield.player).streak_shields - 1) := by
  have hA := C5_loss_path c5StNoShield Direction.up 100 rfl
    (by norm_num [predictionWon, priceChangePct, requiredChange, c5StNoShield, baseSt, basePred])
  have hB := C5_loss_path c5StShield Direction.up 100 rfl
    (by norm_num [predictionWon, priceChangePct, requiredChange, c5StShield, baseSt, basePred])
  exact ⟨hA.1, rfl, hB.2.1 (by decide)⟩

/-- The retry loop yields nothing when every attempt fails. -/
theorem firstSuccess_none (l : List (Option ℚ)) (h : ∀ a ∈ l, a = none) :
    firstSuccess l = none := by
  induction l with
  | nil => rfl
  | cons x l ih =>
      have hx := h x (List.mem_cons_self x l)
      subst hx
      exact ih (fun a ha => h a (List.mem_cons_of_mem _ ha))

/-- Claim C8: when every retry attempt of the price lookup fails, an
existing cache entry for the symbol is returned even when stale, and the
lookup returns `none` exactly when no cache entry exists at all (the
cache is left as it was). -/
theorem C8_stale_fallback (cache : Option CacheEntry) (now : ℚ)
    (attempts : List (Option ℚ)) (hfail : ∀ a ∈ attempts, a = none) :
    get_crypto_price cache now attempts = (Option.map CacheEntry.price cache, cache) ∧
    ((get_crypto_price cache now attempts).1 = none ↔ cache = none) := by
  have hfs := firstSuccess_none attempts hfail
  have h1 : get_crypto_price cache now attempts = (Option.map CacheEntry.price cache, cache) := by
    rcases cache with _ | c
    · simp [get_crypto_price, hfs]
    · simp only [get_crypto_price, hfs]
      split_ifs <;> rfl
  refine ⟨h1, ?_⟩
  rw [h1]
  rcases cache with _ | c <;> simp

theorem C8_stale_fallback_witness :
    (get_crypto_price (some { price := 50, timestamp := 0 }) 1000 [none, none]).1
      = some 50 := by
  have h := C8_stale_fallback (some { price := 50, timestamp := 0 }) 1000 [none, none]
    (by decide)
  rw [h.1]
  rfl

/-- Claim C9: every rejected `use_whale_powerup` call — prediction
already locked, caller not the owner, or empty power-up inventory —
leaves the inventory counter and the whale-mode flag untouched; in
particular a locked prediction can no longer receive the multiplier. -/
theorem C9_whale_rejection (player : Player) (pr : Prediction) (caller : Nat)
    (hrej : pr.locked = true ∨ pr.user_id ≠ caller ∨ player.whale_powerups = 0) :
    (use_whale_powerup player (some pr) caller).1 = player ∧
    (use_whale_powerup player (some pr) caller).2.1 = some pr ∧
    (use_whale_powerup player (some pr) caller).2.2 ≠ WhaleRes.success := by
  unfold use_whale_powerup
  by_cases h0 : player.whale_powerups = 0
  · rw [if_pos h0]
    exact ⟨rfl, rfl, by simp⟩
  · rw [if_neg h0]
    dsimp only
    by_cases ho : pr.user_id ≠ caller
    · rw [if_pos ho]
      exact ⟨rfl, rfl, by simp⟩
    · rw [if_neg ho]
      have hl : pr.locked = true := by
        rcases hrej with h | h | h
        · exact h
        · exact absurd h ho
        · exact absurd h h0
      rw [if_pos hl]
      exact ⟨rfl, rfl, by simp⟩

theorem C9_whale_rejection_witness :
    (use_whale_powerup c9Player (some basePred) 7).1 = c9Player ∧
    (use_whale_powerup c9Player (some basePred) 7).2.1 = some basePred ∧
    (use_whale_powerup c9Player (some basePred) 7).2.2 ≠ WhaleRes.success :=
  C9_whale_rejection c9Player basePred 7 (Or.inl rfl)

/-- Claim C10: inside one `check_achievements` call every predicate is
evaluated against the entry state, before any achievement token reward is
credited, so a reward granted during the call never triggers a further
achievement (such as high_roller) within the same call; and a call that
leaves the state unchanged grants nothing when repeated. -/
theorem C10_achievements_entry_state (p : Player) :
    (check_achievements p).2
      = achievement_list.filter
          (fun a => achievement_cond p a && !(decide (a ∈ p.achievements))) ∧
    (p.shard_tokens < 10000 → AchId.high_roller ∉ (check_achievements p).2) ∧
    ((check_achievements p).1 = p → (check_achievements (check_achievements p).1).2 = []) := by
  refine ⟨check_achievements_news p, ?_, ?_⟩
  · intro hlt hmem
    rw [check_achievements_news p] at hmem
    have hc := List.of_mem_filter hmem
    simp [achievement_cond] at hc
    omega
  · intro hfix
    have hach := check_achievements_ach p
    rw [hfix] at hach
    have hnil : (check_achievements p).2 = [] := by
      have h2 : p.achievements ++ [] = p.achievements ++ (check_achievements p).2 := by
        simpa using hach
      exact (List.append_cancel_left h2).symm
    rw [hfix, hnil]

theorem C10_achievements_entry_state_witness :
    (check_achievements defaultPlayer).2 = [] ∧
    AchId.high_roller ∉ (check_achievements defaultPlayer).2 ∧
    (check_achievements (check_achievements defaultPlayer).1).2 = [] := by
  have h := C10_achievements_entry_state defaultPlayer
  exact ⟨h.1.trans (by decide), h.2.1 (by decide), h.2.2 (by decide)⟩

/-- Claim C1 (amended): `check_prediction_result` carries no
terminal-state guard.  For a prediction with a committed direction, a
second invocation that obtains a price re-runs the whole resolution and
mutates the owner again — `total_predictions` increments once more —
whereas a second invocation that gets no price from the oracle leaves
the player state unchanged. -/
theorem C1_second_call (st : BotState) (o1 : Option ℚ) (d : Direction) (fp : ℚ)
    (hdir : st.pred.direction = some d) :
    (getPlayerData (check_prediction_result (check_prediction_result st o1)
        (some fp)).player).total_predictions
      = (getPlayerData (check_prediction_result st o1).player).total_predictions + 1 ∧
    (check_prediction_result (check_prediction_result st o1) none).player
      = (check_prediction_result st o1).player := by
  have hdir1 : (check_prediction_result st o1).pred.direction = some d := by
    rw [check_pred_direction]
    exact hdir
  constructor
  · rw [check_some (check_prediction_result st o1) d fp hdir1]
    by_cases hw : predictionWon d
        (priceChangePct (check_prediction_result st o1).pred.start_price fp)
        (requiredChange (check_prediction_result st o1).pred.fud_active) = true
    · rw [if_pos hw]
      exact resolveWin_total _ fp _
    · rw [if_neg hw]
      exact resolveLoss_total _ fp _
  · rw [check_price_none (check_prediction_result st o1) d hdir1]

theorem C1_second_call_witness :
    (getPlayerData (check_prediction_result (check_prediction_result baseSt (some 102))
        (some 102)).player).total_predictions
      = (getPlayerData (check_prediction_result baseSt (some 102)).player).total_predictions
          + 1 ∧
    (check_prediction_result (check_prediction_result baseSt (some 102)) none).player
      = (check_prediction_result baseSt (some 102)).player :=
  C1_second_call baseSt (some 102) Direction.up 102 rfl

/-- Counterexample to claim C1 as stated: after a first resolution the
prediction is completed with a recorded `won` outcome, yet a second call
to `check_prediction_result` on it raises the owner attempt counter from
1 to 2 — not a no-op on player state. -/
theorem C1_counterexample :
    (check_prediction_result baseSt (some 102)).pred.completed = true ∧
    (check_prediction_result baseSt (some 102)).pred.result = some PredResult.won ∧
    (getPlayerData (check_prediction_result baseSt (some 102)).player).total_predictions
      = 1 ∧
    (getPlayerData (check_prediction_result (check_prediction_result baseSt (some 102))
        (some 102)).player).total_predictions = 2 := by
  have hw1 : predictionWon Direction.up (priceChangePct baseSt.pred.start_price 102)
      (requiredChange baseSt.pred.fud_active) = true := by
    norm_num [predictionWon, priceChangePct, requiredChange, baseSt, basePred]
  have h1 : check_prediction_result baseSt (some 102)
      = resolveWin baseSt 102 (priceChangePct baseSt.pred.start_price 102) := by
    rw [check_some baseSt Direction.up 102 rfl, if_pos hw1]
  have hw2 : predictionWon Direction.up
      (priceChangePct (check_prediction_result baseSt (some 102)).pred.start_price 102)
      (requiredChange (check_prediction_result baseSt (some 102)).pred.fud_active)
        = true := by
    rw [h1, resolveWin_start, resolveWin_fud]
    exact hw1
  have hdir1 : (check_prediction_result baseSt (some 102)).pred.direction
      = some Direction.up := by
    rw [h1, resolveWin_direction]
    rfl
  have h2 : check_prediction_result (check_prediction_result baseSt (some 102)) (some 102)
      = resolveWin (check_prediction_result baseSt (some 102)) 102
          (priceChangePct (check_prediction_result baseSt (some 102)).pred.start_price
            102) := by
    rw [check_some (check_prediction_result baseSt (some 102)) Direction.up 102 hdir1,
      if_pos hw2]
  refine ⟨by rw [h1]; rfl, by rw [h1]; rfl, ?_, ?_⟩
  · rw [h1, resolveWin_total]
    rfl
  · rw [h2, resolveWin_total, h1, resolveWin_total]
    rfl

/-- Claim C2 at its failing input (the code contradicts the challenge
text): a losing whale-mode resolution counts the whale use
(`whale_uses` increments) but leaves the active whale_mode daily
challenge untouched, while the same prediction resolved as a win does
advance the challenge. -/
theorem C2_loss_no_challenge_update :
    (check_prediction_result c2St (some 100)).pred.result = some PredResult.lost ∧
    c2St.pred.whale_mode = true ∧
    c2St.challenge = some whaleChal ∧
    whaleChal.ctype = ChallengeType.whale_mode ∧
    whaleChal.completed = false ∧
    (check_prediction_result c2St (some 100)).challenge = c2St.challenge ∧
    (getPlayerData (check_prediction_result c2St (some 100)).player).whale_uses
      = (getPlayerData c2St.player).whale_uses + 1 ∧
    (check_prediction_result c2St (some 98)).pred.result = some PredResult.won ∧
    (check_prediction_result c2St (some 98)).challenge
      = some { whaleChal with progress := 1 } := by
  have hlost : predictionWon Direction.down (priceChangePct c2St.pred.start_price 100)
      (requiredChange c2St.pred.fud_active) = false := by
    norm_num [predictionWon, priceChangePct, requiredChange, c2St, baseSt, basePred]
  have hwon : predictionWon Direction.down (priceChangePct c2St.pred.start_price 98)
      (requiredChange c2St.pred.fud_active) = true := by
    norm_num [predictionWon, priceChangePct, requiredChange, c2St, baseSt, basePred]
  have h1 : check_prediction_result c2St (some 100)
      = resolveLoss c2St 100 (priceChangePct c2St.pred.start_price 100) := by
    rw [check_some c2St Direction.down 100 rfl, if_neg (by simp [hlost])]
  have h2 : check_prediction_result c2St (some 98)
      = resolveWin c2St 98 (priceChangePct c2St.pred.start_price 98) := by
    rw [check_some c2St Direction.down 98 rfl, if_pos hwon]
  refine ⟨by rw [h1]; rfl, rfl, rfl, rfl, rfl, ?_, ?_, by rw [h2]; rfl, ?_⟩
  · rw [h1]
    decide
  · rw [h1, resolveLoss_whale_uses]
    decide
  · rw [h2]
    decide

/-- Claim C3 (amended): on a winning resolution the recorded token award
is the double-precision evaluation of
`int(100 * whaleMultiplier * (1 + 0.1 * preIncrementStreak))`; this
agrees with the exact `floor(100 * w * (1 + 0.1 * s))` for every streak
below 13, but at streak 13 (without whale mode) the float product
truncates to 229, one token below the exact value 230. -/
theorem C3_token_reward (st : BotState) (d : Direction) (fp : ℚ)
    (hdir : st.pred.direction = some d)
    (hwon : predictionWon d (priceChangePct st.pred.start_price fp)
      (requiredChange st.pred.fud_active) = true) :
    (check_prediction_result st (some fp)).pred.tokens_earned
      = some (tokenRewardF (whaleMultOf st.pred) (getPlayerData st.player).streak) ∧
    (∀ s, s < 13 → tokenRewardF 1 s = 100 + 10 * s ∧ tokenRewardF 3 s = 300 + 30 * s) ∧
    tokenRewardF 1 13 = 229 := by
  refine ⟨?_, by decide, by decide⟩
  rw [check_some st d fp hdir, if_pos hwon]
  exact resolveWin_tokens st fp _

theorem C3_token_reward_witness :
    (check_prediction_result c3St (some 102)).pred.tokens_earned = some 229 ∧
    tokenRewardF 1 13 = 229 := by
  have h := C3_token_reward c3St Direction.up 102 rfl
    (by norm_num [predictionWon, priceChangePct, requiredChange, c3St, baseSt, basePred])
  refine ⟨?_, h.2.2⟩
  rw [h.1]
  decide

/-- Counterexample to claim C3 as stated: at pre-increment streak 13
(no whale mode) the code records 229 tokens, while the exact
`floor(100 * 1 * (1 + 0.1 * 13))` is 230. -/
theorem C3_counterexample :
    (check_prediction_result c3St (some 102)).pred.tokens_earned = some 229 ∧
    ⌊(100 * (1 : ℚ) * (1 + (13 : ℚ) * (1 / 10)))⌋ = 230 ∧ (229 : ℤ) ≠ 230 := by
  have hw : predictionWon Direction.up (priceChangePct c3St.pred.start_price 102)
      (requiredChange c3St.pred.fud_active) = true := by
    norm_num [predictionWon, priceChangePct, requiredChange, c3St, baseSt, basePred]
  have h1 : check_prediction_result c3St (some 102)
      = resolveWin c3St 102 (priceChangePct c3St.pred.start_price 102) := by
    rw [check_some c3St Direction.up 102 rfl, if_pos hw]
  refine ⟨?_, ?_, by decide⟩
  · rw [h1, resolveWin_tokens]
    decide
  · norm_num

end CryptoClash
